import Mathlib

/-
  Verification development for the "Local Study Room" study-aid application.

  The application consists of a React frontend (file list, flashcard viewer,
  quiz component, API helpers) and a Content Generation Gateway backend that
  calls a generative model and validates its replies.  The frontend source is
  embedded here directly; the Gateway operations are modelled from the
  specification (the backend implementation files are not part of the
  available sources).

  Strings are modelled as lists of characters.
-/

/-- Model of a JavaScript / Python string: a list of characters. -/
abbrev Text := List Char

/-- One study card, shaped `{front, back}` (spec section 3). -/
structure Flashcard where
  front : Text
  back : Text
  deriving DecidableEq

/-- One multiple-choice quiz item, shaped `{question, options, correct_index}`. -/
structure QuizQuestion where
  question : Text
  options : List Text
  correct_index : Nat
  deriving DecidableEq

/-- One user answer sent for grading; self-describing (spec section 3). -/
structure AnswerSubmission where
  question_index : Nat
  selected_index : Nat
  question : Text
  options : List Text
  correct_index : Nat
  deriving DecidableEq

/-- Grading result for one submission (spec section 3). -/
structure GradedAnswer where
  question_index : Nat
  is_correct : Bool
  feedback : Text
  deriving DecidableEq

/- ----------------------------------------------------------------
   Frontend API helpers (frontend/src/api.js).
   A `fetch` response is modelled by its `ok` flag, its `statusText`,
   and the parsed JSON body it would deliver.
   ---------------------------------------------------------------- -/

/-- Model of a `fetch` response: `ok` status flag, status text, parsed body. -/
structure HttpResponse (β : Type) where
  ok : Bool
  statusText : Text
  body : β

/-- Embedding of `fetchFiles` (api.js): return the parsed body when the
response is ok, otherwise throw an error naming the status text. -/
def fetchFiles {β : Type} (resp : HttpResponse β) : Except Text β :=
  if resp.ok then Except.ok resp.body
  else Except.error ("Failed to fetch files: ".toList ++ resp.statusText)

/-- Embedding of `fetchFlashcards` (api.js). -/
def fetchFlashcards {β : Type} (resp : HttpResponse β) : Except Text β :=
  if resp.ok then Except.ok resp.body
  else Except.error ("Failed to fetch flashcards: ".toList ++ resp.statusText)

/-- Embedding of `fetchQuiz` (api.js). -/
def fetchQuiz {β : Type} (resp : HttpResponse β) : Except Text β :=
  if resp.ok then Except.ok resp.body
  else Except.error ("Failed to fetch quiz: ".toList ++ resp.statusText)

/-- Embedding of `submitQuiz` (api.js); the `answers` argument is the request
body, the response handling is identical to the other helpers. -/
def submitQuiz {β : Type} (answers : List AnswerSubmission) (resp : HttpResponse β) :
    Except Text β :=
  if resp.ok then Except.ok resp.body
  else Except.error ("Failed to submit quiz: ".toList ++ resp.statusText)

/- ----------------------------------------------------------------
   Quiz component state (frontend/src/components/Quiz.jsx).
   The `answers` object literal is modelled as an association list in
   insertion order (JavaScript object keys are unique).
   ---------------------------------------------------------------- -/

/-- State of the Quiz component: the loaded questions, the answers object
(question index to selected option index), and the graded results. -/
structure QuizState where
  questions : List QuizQuestion
  answers : List (Nat × Nat)
  results : Option (List GradedAnswer)

/-- Initial Quiz component state after a successful quiz load. -/
def initQuizState (qs : List QuizQuestion) : QuizState :=
  { questions := qs, answers := [], results := none }

/-- JavaScript object update `{...prev, [k]: v}` on an association list:
replace the value at an existing key in place, otherwise append. -/
def setAnswer (m : List (Nat × Nat)) (k v : Nat) : List (Nat × Nat) :=
  if m.any (fun p => p.1 == k) then
    m.map (fun p => if p.1 == k then (k, v) else p)
  else m ++ [(k, v)]

/-- JavaScript object read `answers[k]` on the association list model. -/
def getAnswer (m : List (Nat × Nat)) (k : Nat) : Option Nat :=
  (m.find? (fun p => p.1 == k)).map Prod.snd

/-- Embedding of `selectAnswer` (Quiz.jsx): no-op once `results` is set,
otherwise record the selected option for the question. -/
def selectAnswer (s : QuizState) (questionIndex optionIndex : Nat) : QuizState :=
  if s.results.isSome then s
  else { s with answers := setAnswer s.answers questionIndex optionIndex }

/-- Run a sequence of user answer selections from the freshly loaded state. -/
def applyEvents (qs : List QuizQuestion) (events : List (Nat × Nat)) : QuizState :=
  events.foldl (fun s e => selectAnswer s e.1 e.2) (initQuizState qs)

/-- Embedding of `allAnswered` (Quiz.jsx): the question list is non-empty and
the answers object has as many keys as there are questions. -/
def allAnswered (s : QuizState) : Bool :=
  decide (0 < s.questions.length) && (s.answers.length == s.questions.length)

/-- Embedding of the submission payload built in `handleSubmit` (Quiz.jsx):
one entry per question, indexed in order, copying the question fields. -/
def buildSubmission (s : QuizState) : List AnswerSubmission :=
  s.questions.enum.map (fun p =>
    { question_index := p.1
      selected_index := (getAnswer s.answers p.1).getD 0
      question := p.2.question
      options := p.2.options
      correct_index := p.2.correct_index })

/-- Embedding of `handleSubmit` (Quiz.jsx): the grading request is issued
only when `allAnswered` holds. -/
def handleSubmit (s : QuizState) : Option (List AnswerSubmission) :=
  if allAnswered s then some (buildSubmission s) else none

/- ----------------------------------------------------------------
   Score computation (Quiz.jsx, getScore).
   JavaScript number semantics for the division are modelled explicitly:
   0 / 0 is NaN, positive / 0 is Infinity, otherwise exact rational.
   ---------------------------------------------------------------- -/

/-- JavaScript number produced by the score computation: an exact rational,
NaN, or Infinity. -/
inductive JsNum where
  | num (q : ℚ)
  | nan
  | inf
  deriving DecidableEq

/-- JavaScript division of two non-negative integers: `0 / 0` is NaN,
`a / 0` with `a > 0` is Infinity, otherwise the exact quotient. -/
def jsDivNat (a b : Nat) : JsNum :=
  if b = 0 then (if a = 0 then JsNum.nan else JsNum.inf)
  else JsNum.num ((a : ℚ) / (b : ℚ))

/-- Multiplication of a JavaScript number by a positive integer constant. -/
def jsMulConst (x : JsNum) (c : ℚ) : JsNum :=
  match x with
  | JsNum.num q => JsNum.num (q * c)
  | JsNum.nan => JsNum.nan
  | JsNum.inf => JsNum.inf

/-- JavaScript `Math.round` on non-negative values: half rounds up;
NaN and Infinity pass through. -/
def jsRound (x : JsNum) : JsNum :=
  match x with
  | JsNum.num q => JsNum.num ((⌊q + 1/2⌋ : ℤ) : ℚ)
  | JsNum.nan => JsNum.nan
  | JsNum.inf => JsNum.inf

/-- Result of `getScore` (Quiz.jsx). -/
structure Score where
  correct : Nat
  total : Nat
  percentage : JsNum
  deriving DecidableEq

/-- Embedding of `getScore` (Quiz.jsx): zeros when `results` is null,
otherwise count of correct answers, total, and rounded percentage. -/
def getScore (results : Option (List GradedAnswer)) : Score :=
  match results with
  | none => { correct := 0, total := 0, percentage := JsNum.num 0 }
  | some rs =>
    let correct := rs.countP (fun r => r.is_correct)
    let total := rs.length
    { correct := correct
      total := total
      percentage := jsRound (jsMulConst (jsDivNat correct total) 100) }

/- ----------------------------------------------------------------
   Flashcard component navigation (frontend Flashcard component).
   ---------------------------------------------------------------- -/

/-- View state of the Flashcard component: the committed `currentIndex`
React state (a JavaScript number, so an integer here), the flip flag, and
the FIFO queue of functional index updates whose 150 ms `setTimeout`
callbacks have not fired yet. -/
structure FlashcardViewState where
  currentIndex : Int
  isFlipped : Bool
  pending : List Int
  deriving DecidableEq

/-- Embedding of `goToNext`: when the committed index is strictly before
the last card, unflip immediately and queue the deferred `+1` functional
update.  The guard reads the committed index, so every activation inside
the 150 ms window sees the same index. -/
def goToNext (cards : List Flashcard) (s : FlashcardViewState) : FlashcardViewState :=
  if s.currentIndex < (cards.length : Int) - 1 then
    { s with isFlipped := false, pending := s.pending ++ [1] }
  else s

/-- Embedding of `goToPrevious`: when not at the first card, unflip and
queue the deferred `-1` functional update. -/
def goToPrevious (s : FlashcardViewState) : FlashcardViewState :=
  if 0 < s.currentIndex then
    { s with isFlipped := false, pending := s.pending ++ [-1] }
  else s

/-- Embedding of `flipCard`: toggle the flip flag (applied immediately). -/
def flipCard (s : FlashcardViewState) : FlashcardViewState :=
  { s with isFlipped := !s.isFlipped }

/-- One queued `setTimeout` callback fires: the oldest deferred functional
update is applied to the committed index. -/
def timerFire (s : FlashcardViewState) : FlashcardViewState :=
  match s.pending with
  | [] => s
  | d :: rest => { s with currentIndex := s.currentIndex + d, pending := rest }

/-- A scheduler event on the Flashcard component: a user activation of
Next, Previous or Flip, or the firing of a queued navigation timer. -/
inductive NavEvent where
  | next
  | prev
  | flip
  | tick
  deriving DecidableEq

/-- Dispatch one scheduler event. -/
def navStep (cards : List Flashcard) (s : FlashcardViewState) (e : NavEvent) :
    FlashcardViewState :=
  match e with
  | NavEvent.next => goToNext cards s
  | NavEvent.prev => goToPrevious s
  | NavEvent.flip => flipCard s
  | NavEvent.tick => timerFire s

/-- Run a sequence of scheduler events from the initial view state
(first card, unflipped, no timer pending). -/
def runNav (cards : List Flashcard) (events : List NavEvent) : FlashcardViewState :=
  events.foldl (navStep cards) { currentIndex := 0, isFlipped := false, pending := [] }

/-- One event under the settled schedule: the activation's deferred update
(if any) fires before anything else happens — activations spaced further
apart than the 150 ms animation delay. -/
def navSettle (cards : List Flashcard) (s : FlashcardViewState) (e : NavEvent) :
    FlashcardViewState :=
  timerFire (navStep cards s e)

/-- Run a sequence of events under the settled schedule. -/
def runNavSettled (cards : List Flashcard) (events : List NavEvent) : FlashcardViewState :=
  events.foldl (navSettle cards) { currentIndex := 0, isFlipped := false, pending := [] }

/-- The card the component renders, `cards[currentIndex]`: undefined for a
negative or too-large index. -/
def displayedCard (cards : List Flashcard) (s : FlashcardViewState) : Option Flashcard :=
  if 0 ≤ s.currentIndex then cards[s.currentIndex.toNat]? else none

/- ----------------------------------------------------------------
   Content Generation Gateway (spec sections 4 and 7).
   The backend implementation files (tools.py, routes.py) are not among
   the available sources; the Gateway operations below are modelled from
   the specification.
   ---------------------------------------------------------------- -/

/-- Modelled from the spec: a JSON value as parsed from a model reply
(the backend JSON-parsing utilities in tools.py are missing from the
sources). -/
inductive Json where
  | null
  | bool (b : Bool)
  | num (q : ℚ)
  | str (s : Text)
  | arr (elems : List Json)
  | obj (fields : List (Text × Json))

/-- Look up an object field by name; `none` on non-objects. -/
def Json.getField (j : Json) (name : Text) : Option Json :=
  match j with
  | Json.obj fields => (fields.find? (fun p => p.1 == name)).map Prod.snd
  | _ => none

/-- Errors of the Gateway taxonomy relevant to content generation
(spec section 7). -/
inductive GatewayError where
  | GenerationFailure
  | MalformedModelOutput
  deriving DecidableEq

/-- Field name `front`. -/
def frontKey : Text := "front".toList

/-- Field name `back`. -/
def backKey : Text := "back".toList

/-- Field name `question`. -/
def questionKey : Text := "question".toList

/-- Field name `options`. -/
def optionsKey : Text := "options".toList

/-- Field name `correct_index`. -/
def correctIndexKey : Text := "correct_index".toList

/-- Modelled from the spec: validation of one flashcard object — an object
with non-empty string fields `front` and `back` (spec sections 3 and 4). -/
def flashcardOfJson (j : Json) : Option Flashcard :=
  match j.getField frontKey, j.getField backKey with
  | some (Json.str f), some (Json.str b) =>
    if !f.isEmpty && !b.isEmpty then some { front := f, back := b } else none
  | _, _ => none

/-- Validate a list of flashcard objects; any single failure rejects the
whole list (no partial records are kept). -/
def validateCards : List Json → Option (List Flashcard)
  | [] => some []
  | j :: rest =>
    match flashcardOfJson j, validateCards rest with
    | some c, some cs => some (c :: cs)
    | _, _ => none

/-- Modelled from the spec: shape validation for a flashcards reply — an
array of exactly 10 well-shaped flashcard objects (spec section 4). -/
def validateFlashcards (j : Json) : Option (List Flashcard) :=
  match j with
  | Json.arr elems => if elems.length == 10 then validateCards elems else none
  | _ => none

/-- Convert a list of JSON values to strings, requiring every entry to be a
non-empty string. -/
def textListOf : List Json → Option (List Text)
  | [] => some []
  | Json.str s :: rest =>
    if s.isEmpty then none
    else (textListOf rest).map (fun ts => s :: ts)
  | _ => none

/-- Modelled from the spec: validation of one quiz question object — an
object with a string `question`, an `options` array of exactly 4 non-empty
strings, and an integer `correct_index` in 0..3 (spec section 4). -/
def quizItemOfJson (j : Json) : Option QuizQuestion :=
  match j.getField questionKey, j.getField optionsKey, j.getField correctIndexKey with
  | some (Json.str q), some (Json.arr opts), some (Json.num ci) =>
    match textListOf opts with
    | some ts =>
      if (ts.length == 4) && (ci.den == 1) && decide (0 ≤ ci.num) && decide (ci.num ≤ 3) then
        some { question := q, options := ts, correct_index := ci.num.toNat }
      else none
    | none => none
  | _, _, _ => none

/-- Validate a list of quiz question objects; any single failure rejects the
whole list. -/
def validateQuestions : List Json → Option (List QuizQuestion)
  | [] => some []
  | j :: rest =>
    match quizItemOfJson j, validateQuestions rest with
    | some q, some qs => some (q :: qs)
    | _, _ => none

/-- Modelled from the spec: shape validation for a quiz reply — an array of
exactly 10 well-shaped quiz question objects. -/
def validateQuiz (j : Json) : Option (List QuizQuestion) :=
  match j with
  | Json.arr elems => if elems.length == 10 then validateQuestions elems else none
  | _ => none

/- Shape predicates written from the claim wording, used to state the
malformed-output rejection property independently of the validators. -/

/-- A JSON value that is a non-empty string. -/
def isNonemptyStr (j : Json) : Bool :=
  match j with
  | Json.str s => !s.isEmpty
  | _ => false

/-- A well-shaped flashcard object per the spec wording: fields `front` and
`back`, both non-empty strings. -/
def isFlashcardItem (j : Json) : Bool :=
  match j.getField frontKey, j.getField backKey with
  | some (Json.str f), some (Json.str b) => !f.isEmpty && !b.isEmpty
  | _, _ => false

/-- An array of exactly 10 well-shaped flashcard objects. -/
def isFlashcardArray (j : Json) : Bool :=
  match j with
  | Json.arr elems => (elems.length == 10) && elems.all isFlashcardItem
  | _ => false

/-- A well-shaped quiz question object per the spec wording: a string
`question`, `options` of exactly 4 non-empty entries, and an integer
`correct_index` in 0..3. -/
def isQuizItem (j : Json) : Bool :=
  match j.getField questionKey, j.getField optionsKey, j.getField correctIndexKey with
  | some (Json.str _), some (Json.arr opts), some (Json.num ci) =>
    (opts.length == 4) && opts.all isNonemptyStr &&
      (ci.den == 1) && decide (0 ≤ ci.num) && decide (ci.num ≤ 3)
  | _, _, _ => false

/-- An array of exactly 10 well-shaped quiz question objects. -/
def isQuizArray (j : Json) : Bool :=
  match j with
  | Json.arr elems => (elems.length == 10) && elems.all isQuizItem
  | _ => false

/- ----------------------------------------------------------------
   Tolerant JSON extraction (spec sections 4 and 9).
   The chain of attempts: strict parse, fenced-code-block extraction,
   first-to-last bracket span extraction, then shape validation.
   The textual JSON parser itself is taken as a parameter; the
   extraction steps are concrete string manipulations.
   ---------------------------------------------------------------- -/

/-- Split a character list at the first occurrence of a (non-empty) pattern:
returns the part before the occurrence and the part after it. -/
def splitOnFirst (pat : Text) : Text → Option (Text × Text)
  | [] => none
  | c :: rest =>
    if pat.isPrefixOf (c :: rest) then some ([], (c :: rest).drop pat.length)
    else
      match splitOnFirst pat rest with
      | some (b, a) => some (c :: b, a)
      | none => none

/-- Split a character list at the last occurrence of a pattern, via the
first occurrence of the reversed pattern in the reversed list. -/
def splitOnLast (pat : Text) (s : Text) : Option (Text × Text) :=
  match splitOnFirst pat.reverse s.reverse with
  | some (b, a) => some (a.reverse, b.reverse)
  | none => none

/-- Whitespace characters recognised when trimming model replies. -/
def isWs (c : Char) : Bool :=
  c == ' ' || c == '\n' || c == '\t' || c == '\r'

/-- Trim whitespace from both ends of a character list. -/
def trimText (t : Text) : Text :=
  ((t.dropWhile isWs).reverse.dropWhile isWs).reverse

/-- Drop the first line (up to and including the first newline); identity
when there is no newline. -/
def dropFirstLine (t : Text) : Text :=
  match splitOnFirst ['\n'] t with
  | some (_, rest) => rest
  | none => t

/-- The markdown code fence delimiter. -/
def fenceMark : Text := "```".toList

/-- Modelled from the spec: fenced-code-block extraction (tools.py is
missing from the sources) — the content between the first and the last
fence, with the language-tag line dropped and whitespace trimmed. -/
def extractFenced (s : Text) : Option Text :=
  match splitOnFirst fenceMark s with
  | none => none
  | some (_, rest) =>
    match splitOnLast fenceMark rest with
    | none => none
    | some (mid, _) => some (trimText (dropFirstLine mid))

/-- Modelled from the spec: bracket-span extraction — the substring from
the first `[` through the matching last `]`, inclusive. -/
def bracketSpan (s : Text) : Option Text :=
  match splitOnFirst ['['] s with
  | none => none
  | some (_, rest) =>
    match splitOnLast [']'] rest with
    | none => none
    | some (mid, _) => some ('[' :: (mid ++ [']']))

/-- Modelled from the spec: the tolerant extraction chain — strict parse,
then fenced-block extraction, then bracket-span extraction; the first stage
that parses wins. -/
def tolerantExtract (parse : Text → Option Json) (raw : Text) : Option Json :=
  match parse raw with
  | some j => some j
  | none =>
    match (extractFenced raw).bind parse with
    | some j => some j
    | none => (bracketSpan raw).bind parse

/-- Modelled from the spec: parse a model reply tolerantly and validate its
shape; any failure is `MalformedModelOutput` and yields no data. -/
def parseModelReply {α : Type} (parse : Text → Option Json)
    (validate : Json → Option α) (raw : Text) : Except GatewayError α :=
  match tolerantExtract parse raw with
  | none => Except.error GatewayError.MalformedModelOutput
  | some j =>
    match validate j with
    | none => Except.error GatewayError.MalformedModelOutput
    | some v => Except.ok v

/-- Modelled from the spec: `generateFlashcards` — a failed model invocation
is `GenerationFailure`; a reply is parsed tolerantly and shape-validated. -/
def generateFlashcards (parse : Text → Option Json)
    (modelReply : Except Unit Text) : Except GatewayError (List Flashcard) :=
  match modelReply with
  | Except.error _ => Except.error GatewayError.GenerationFailure
  | Except.ok raw => parseModelReply parse validateFlashcards raw

/-- Modelled from the spec: `generateQuiz` — same discipline as
`generateFlashcards` with the quiz shape requirement. -/
def generateQuiz (parse : Text → Option Json)
    (modelReply : Except Unit Text) : Except GatewayError (List QuizQuestion) :=
  match modelReply with
  | Except.error _ => Except.error GatewayError.GenerationFailure
  | Except.ok raw => parseModelReply parse validateQuiz raw

/-- A model reply wrapped in a fenced markdown code block with a `json`
language tag. -/
def wrapFence (s : Text) : Text :=
  "```json\n".toList ++ (s ++ "\n```".toList)

/- ----------------------------------------------------------------
   Grading (spec section 4, operation gradeSubmissions; section 7,
   GradingDegraded).
   ---------------------------------------------------------------- -/

/-- Modelled from the spec: the deterministic fallback feedback used when a
per-item feedback model call fails — it restates the correct answer. -/
def fallbackFeedback (sub : AnswerSubmission) : Text :=
  "The correct answer is: ".toList ++ sub.options.getD sub.correct_index []

/-- Modelled from the spec: grade one submission — correctness is a local
index comparison; feedback comes from the model call, falling back to the
deterministic template when that call fails. -/
def gradeOne (feedbackCall : AnswerSubmission → Except Unit Text)
    (sub : AnswerSubmission) : GradedAnswer :=
  { question_index := sub.question_index
    is_correct := sub.selected_index == sub.correct_index
    feedback :=
      match feedbackCall sub with
      | Except.ok f => f
      | Except.error _ => fallbackFeedback sub }

/-- Modelled from the spec: `gradeSubmissions` — grade every submission;
per-item feedback failures never fail the batch. -/
def gradeSubmissions (feedbackCall : AnswerSubmission → Except Unit Text)
    (subs : List AnswerSubmission) : List GradedAnswer :=
  subs.map (gradeOne feedbackCall)

/-- A feedback generator whose every call fails. -/
def alwaysFailFeedback : AnswerSubmission → Except Unit Text :=
  fun _ => Except.error ()

/- ----------------------------------------------------------------
   Concrete fixtures used to instantiate the theorems below on
   concrete inputs.
   ---------------------------------------------------------------- -/

/-- A concrete well-shaped flashcard object. -/
def sampleCardJson : Json :=
  Json.obj [(frontKey, Json.str ['a']), (backKey, Json.str ['b'])]

/-- A concrete JSON array of exactly 10 well-shaped flashcard objects. -/
def tenCardsJson : Json := Json.arr (List.replicate 10 sampleCardJson)

/-- The flashcards that `tenCardsJson` validates to. -/
def tenCards : List Flashcard :=
  List.replicate 10 { front := ['a'], back := ['b'] }

/-- A toy textual parser: replies beginning with `J` parse to the concrete
ten-card array, everything else fails to parse. -/
def parseToy (t : Text) : Option Json :=
  match t with
  | [] => none
  | c :: _ => if c == 'J' then some tenCardsJson else none

/-- A toy textual parser: replies beginning with `K` parse to an empty JSON
array (valid JSON of the wrong shape), everything else fails to parse. -/
def parseToyEmpty (t : Text) : Option Json :=
  match t with
  | [] => none
  | c :: _ => if c == 'K' then some (Json.arr []) else none

/-- A concrete ok response used to instantiate the API contract. -/
def respOkNat : HttpResponse Nat := { ok := true, statusText := ['O'], body := 0 }

/-- A concrete non-ok response used to instantiate the API contract. -/
def respBadNat : HttpResponse Nat := { ok := false, statusText := ['N', 'F'], body := 1 }

/-- A concrete quiz question used to instantiate the submission theorem. -/
def sampleQ0 : QuizQuestion :=
  { question := ['x'], options := [['a'], ['b'], ['c'], ['d']], correct_index := 1 }

/-- A second concrete quiz question used to instantiate the submission
theorem. -/
def sampleQ1 : QuizQuestion :=
  { question := ['y'], options := [['e'], ['f'], ['g'], ['h']], correct_index := 2 }

/-- A concrete two-card list used to instantiate the navigation theorems. -/
def sampleCards : List Flashcard :=
  [{ front := ['a'], back := ['b'] }, { front := ['c'], back := ['d'] }]

/- ----------------------------------------------------------------
   Helper lemmas about the validators.
   ---------------------------------------------------------------- -/

/-- A validated flashcard has non-empty front and back. -/
theorem flashcardOfJson_fields (j : Json) (c : Flashcard)
    (h : flashcardOfJson j = some c) : c.front ≠ [] ∧ c.back ≠ [] := by
  unfold flashcardOfJson at h
  split at h
  case _ f b _ _ =>
    split at h
    case isTrue hcond =>
      injection h with h
      subst h
      simp only [Bool.and_eq_true, Bool.not_eq_true'] at hcond
      constructor
      · simpa [List.isEmpty_iff] using hcond.1
      · simpa [List.isEmpty_iff] using hcond.2
    case isFalse => exact absurd h (by simp)
  case _ => exact absurd h (by simp)

/-- Validated card lists preserve length and field non-emptiness. -/
theorem validateCards_some (l : List Json) (cs : List Flashcard)
    (h : validateCards l = some cs) :
    cs.length = l.length ∧ ∀ c ∈ cs, c.front ≠ [] ∧ c.back ≠ [] := by
  induction l generalizing cs with
  | nil =>
    simp only [validateCards, Option.some.injEq] at h
    subst h
    simp
  | cons j rest ih =>
    revert h
    simp only [validateCards]
    cases hj : flashcardOfJson j with
    | none => intro h; exact absurd h (by simp)
    | some c =>
      cases hr : validateCards rest with
      | none => intro h; exact absurd h (by simp)
      | some cs0 =>
        intro h
        simp only [Option.some.injEq] at h
        subst h
        obtain ⟨hl, hall⟩ := ih cs0 hr
        refine ⟨by simp [hl], ?_⟩
        intro x hx
        rcases List.mem_cons.mp hx with h1 | h2
        · subst h1; exact flashcardOfJson_fields j x hj
        · exact hall x h2

/- Witness fixtures: a toy textual parser and concrete replies used to
instantiate the Gateway theorems on concrete inputs. -/

/-- C2: every successful `generateFlashcards` call yields exactly 10
flashcards, each with non-empty front and back; a count mismatch is a hard
failure, never a truncate-or-pad. -/
theorem flashcards_shape_invariant (parse : Text → Option Json)
    (modelReply : Except Unit Text) (res : List Flashcard)
    (hok : generateFlashcards parse modelReply = Except.ok res) :
    res.length = 10 ∧ ∀ c ∈ res, c.front ≠ [] ∧ c.back ≠ [] := by
  unfold generateFlashcards at hok
  split at hok
  · exact absurd hok (by simp)
  case _ raw =>
    unfold parseModelReply at hok
    split at hok
    · exact absurd hok (by simp)
    case _ j hj =>
      revert hok
      cases hv : validateFlashcards j with
      | none => intro hok; exact absurd hok (by simp)
      | some v =>
        intro hok
        simp only [Except.ok.injEq] at hok
        subst hok
        unfold validateFlashcards at hv
        split at hv
        case _ elems =>
          split at hv
          case isTrue hlen =>
            obtain ⟨hl, hall⟩ := validateCards_some elems v hv
            exact ⟨by rw [hl]; simpa using hlen, hall⟩
          case isFalse => exact absurd hv (by simp)
        case _ => exact absurd hv (by simp)

/-- Witness for C2 at a concrete parser and reply. -/
theorem flashcards_shape_invariant_witness :
    generateFlashcards parseToy (Except.ok ['J']) = Except.ok tenCards ∧
      tenCards.length = 10 ∧ ∀ c ∈ tenCards, c.front ≠ [] ∧ c.back ≠ [] :=
  ⟨rfl, flashcards_shape_invariant parseToy (Except.ok ['J']) tenCards rfl⟩

/-- C1: every graded answer's `is_correct` is the local index comparison of
the corresponding submission, position by position, and the `is_correct`
results do not depend on the feedback model call at all (they are the same
as when every feedback call fails). -/
theorem grading_correctness_local (feedbackCall : AnswerSubmission → Except Unit Text)
    (subs : List AnswerSubmission) :
    (gradeSubmissions feedbackCall subs).length = subs.length ∧
    (∀ (i : Nat) (sub : AnswerSubmission) (g : GradedAnswer),
      subs[i]? = some sub →
      (gradeSubmissions feedbackCall subs)[i]? = some g →
      g.is_correct = (sub.selected_index == sub.correct_index) ∧
        g.question_index = sub.question_index) ∧
    (gradeSubmissions feedbackCall subs).map (fun g => g.is_correct) =
      (gradeSubmissions alwaysFailFeedback subs).map (fun g => g.is_correct) := by
  refine ⟨by simp [gradeSubmissions], ?_, ?_⟩
  · intro i sub g hsub hg
    simp [gradeSubmissions, List.getElem?_map, hsub] at hg
    subst hg
    exact ⟨rfl, rfl⟩
  · simp only [gradeSubmissions, List.map_map]
    rfl

/-- Witness for C1 at a concrete submission batch. -/
theorem grading_correctness_local_witness :
    (gradeSubmissions alwaysFailFeedback
        [{ question_index := 0, selected_index := 1, question := ['q'],
           options := [['a'], ['b'], ['c'], ['d']], correct_index := 2 }]).length = 1 ∧
    (∀ (i : Nat) (sub : AnswerSubmission) (g : GradedAnswer),
      ([{ question_index := 0, selected_index := 1, question := ['q'],
          options := [['a'], ['b'], ['c'], ['d']],
          correct_index := 2 }] : List AnswerSubmission)[i]? = some sub →
      (gradeSubmissions alwaysFailFeedback
        [{ question_index := 0, selected_index := 1, question := ['q'],
           options := [['a'], ['b'], ['c'], ['d']], correct_index := 2 }])[i]? = some g →
      g.is_correct = (sub.selected_index == sub.correct_index) ∧
        g.question_index = sub.question_index) ∧
    (gradeSubmissions alwaysFailFeedback
        [{ question_index := 0, selected_index := 1, question := ['q'],
           options := [['a'], ['b'], ['c'], ['d']], correct_index := 2 }]).map
        (fun g => g.is_correct) =
      (gradeSubmissions alwaysFailFeedback
        [{ question_index := 0, selected_index := 1, question := ['q'],
           options := [['a'], ['b'], ['c'], ['d']], correct_index := 2 }]).map
        (fun g => g.is_correct) :=
  grading_correctness_local alwaysFailFeedback
    [{ question_index := 0, selected_index := 1, question := ['q'],
       options := [['a'], ['b'], ['c'], ['d']], correct_index := 2 }]

/-- C6: when the feedback model call fails for an item, that item still gets
a graded answer with accurate local correctness and the deterministic
non-empty fallback feedback, and the batch as a whole never fails (one
graded answer per submission). -/
theorem grading_degraded_fallback (feedbackCall : AnswerSubmission → Except Unit Text)
    (subs : List AnswerSubmission) (i : Nat) (sub : AnswerSubmission)
    (hsub : subs[i]? = some sub) (hfail : feedbackCall sub = Except.error ()) :
    (gradeSubmissions feedbackCall subs).length = subs.length ∧
    ∃ g, (gradeSubmissions feedbackCall subs)[i]? = some g ∧
      g.feedback = fallbackFeedback sub ∧
      fallbackFeedback sub ≠ [] ∧
      g.is_correct = (sub.selected_index == sub.correct_index) := by
  refine ⟨by simp [gradeSubmissions], gradeOne feedbackCall sub, ?_, ?_, ?_, rfl⟩
  · simp [gradeSubmissions, List.getElem?_map, hsub]
  · simp [gradeOne, hfail]
  · intro hcontra
    rcases List.append_eq_nil.mp hcontra with ⟨h1, _⟩
    exact absurd h1 (by decide)

/-- Witness for C6 at a concrete submission whose feedback call fails. -/
theorem grading_degraded_fallback_witness :
    (([{ question_index := 0, selected_index := 2, question := ['q'],
         options := [['a'], ['b'], ['c'], ['d']],
         correct_index := 2 }] : List AnswerSubmission)[0]? =
      some { question_index := 0, selected_index := 2, question := ['q'],
             options := [['a'], ['b'], ['c'], ['d']], correct_index := 2 }) ∧
    ((gradeSubmissions alwaysFailFeedback
        [{ question_index := 0, selected_index := 2, question := ['q'],
           options := [['a'], ['b'], ['c'], ['d']], correct_index := 2 }]).length = 1 ∧
    ∃ g, (gradeSubmissions alwaysFailFeedback
        [{ question_index := 0, selected_index := 2, question := ['q'],
           options := [['a'], ['b'], ['c'], ['d']], correct_index := 2 }])[0]? = some g ∧
      g.feedback = fallbackFeedback
        { question_index := 0, selected_index := 2, question := ['q'],
          options := [['a'], ['b'], ['c'], ['d']], correct_index := 2 } ∧
      fallbackFeedback
        { question_index := 0, selected_index := 2, question := ['q'],
          options := [['a'], ['b'], ['c'], ['d']], correct_index := 2 } ≠ [] ∧
      g.is_correct = (2 == 2 : Bool)) :=
  ⟨rfl, grading_degraded_fallback alwaysFailFeedback _ 0 _ rfl rfl⟩

/-- Contract of one API helper of the shape used throughout api.js: the
parsed body comes back exactly when the response is ok; otherwise an error
whose message ends with the status text, and no content. -/
theorem apiHelperContract {β : Type} (pre : Text) (r : HttpResponse β) :
    ((∃ b, (if r.ok then Except.ok r.body
            else Except.error (pre ++ r.statusText) : Except Text β) = Except.ok b) ↔
      r.ok = true) ∧
    (r.ok = true →
      (if r.ok then Except.ok r.body
       else Except.error (pre ++ r.statusText) : Except Text β) = Except.ok r.body) ∧
    (r.ok = false →
      ∃ p, (if r.ok then Except.ok r.body
            else Except.error (pre ++ r.statusText) : Except Text β) =
        Except.error (p ++ r.statusText)) := by
  cases hok : r.ok with
  | false =>
    refine ⟨by simp [hok], ?_, ?_⟩
    · intro h; simp at h
    · intro _; exact ⟨pre, by simp [hok]⟩
  | true =>
    refine ⟨by simp [hok], ?_, ?_⟩
    · intro _; simp [hok]
    · intro h; simp at h

/-- C7: each of the four API helpers returns the parsed body exactly when
the response is ok; on a non-ok response it throws an error whose message
ends with the status text, and yields no content. -/
theorem api_error_propagation {β γ δ ε : Type}
    (r1 : HttpResponse β) (r2 : HttpResponse γ) (r3 : HttpResponse δ)
    (answers : List AnswerSubmission) (r4 : HttpResponse ε) :
    (((∃ b, fetchFiles r1 = Except.ok b) ↔ r1.ok = true) ∧
      (r1.ok = true → fetchFiles r1 = Except.ok r1.body) ∧
      (r1.ok = false → ∃ p, fetchFiles r1 = Except.error (p ++ r1.statusText))) ∧
    (((∃ b, fetchFlashcards r2 = Except.ok b) ↔ r2.ok = true) ∧
      (r2.ok = true → fetchFlashcards r2 = Except.ok r2.body) ∧
      (r2.ok = false → ∃ p, fetchFlashcards r2 = Except.error (p ++ r2.statusText))) ∧
    (((∃ b, fetchQuiz r3 = Except.ok b) ↔ r3.ok = true) ∧
      (r3.ok = true → fetchQuiz r3 = Except.ok r3.body) ∧
      (r3.ok = false → ∃ p, fetchQuiz r3 = Except.error (p ++ r3.statusText))) ∧
    (((∃ b, submitQuiz answers r4 = Except.ok b) ↔ r4.ok = true) ∧
      (r4.ok = true → submitQuiz answers r4 = Except.ok r4.body) ∧
      (r4.ok = false → ∃ p, submitQuiz answers r4 = Except.error (p ++ r4.statusText))) :=
  ⟨apiHelperContract "Failed to fetch files: ".toList r1,
   apiHelperContract "Failed to fetch flashcards: ".toList r2,
   apiHelperContract "Failed to fetch quiz: ".toList r3,
   apiHelperContract "Failed to submit quiz: ".toList r4⟩

/-- Witness for C7 at concrete ok and non-ok responses. -/
theorem api_error_propagation_witness :
    (((∃ b, fetchFiles respOkNat = Except.ok b) ↔ respOkNat.ok = true) ∧
      (respOkNat.ok = true → fetchFiles respOkNat = Except.ok respOkNat.body) ∧
      (respOkNat.ok = false →
        ∃ p, fetchFiles respOkNat = Except.error (p ++ respOkNat.statusText))) ∧
    (((∃ b, fetchFlashcards respBadNat = Except.ok b) ↔ respBadNat.ok = true) ∧
      (respBadNat.ok = true → fetchFlashcards respBadNat = Except.ok respBadNat.body) ∧
      (respBadNat.ok = false →
        ∃ p, fetchFlashcards respBadNat = Except.error (p ++ respBadNat.statusText))) ∧
    (((∃ b, fetchQuiz respBadNat = Except.ok b) ↔ respBadNat.ok = true) ∧
      (respBadNat.ok = true → fetchQuiz respBadNat = Except.ok respBadNat.body) ∧
      (respBadNat.ok = false →
        ∃ p, fetchQuiz respBadNat = Except.error (p ++ respBadNat.statusText))) ∧
    (((∃ b, submitQuiz [] respOkNat = Except.ok b) ↔ respOkNat.ok = true) ∧
      (respOkNat.ok = true → submitQuiz [] respOkNat = Except.ok respOkNat.body) ∧
      (respOkNat.ok = false →
        ∃ p, submitQuiz [] respOkNat = Except.error (p ++ respOkNat.statusText))) :=
  api_error_propagation respOkNat respBadNat respBadNat [] respOkNat

/-- C8: once results are present, `selectAnswer` is a no-op on the whole
component state, for every question and option index. -/
theorem select_answer_frozen_after_grading (s : QuizState) (q o : Nat)
    (h : s.results.isSome = true) : selectAnswer s q o = s := by
  unfold selectAnswer
  simp [h]

/-- Witness for C8 at a concrete graded state. -/
theorem select_answer_frozen_after_grading_witness :
    ({ questions := [], answers := [(0, 1)],
       results := some [] } : QuizState).results.isSome = true ∧
    selectAnswer { questions := [], answers := [(0, 1)], results := some [] } 0 3 =
      { questions := [], answers := [(0, 1)], results := some [] } :=
  ⟨rfl, select_answer_frozen_after_grading
    { questions := [], answers := [(0, 1)], results := some [] } 0 3 rfl⟩

/-- C9: `getScore` returns zeros when results is null; on a non-empty
results array it returns the count of correct entries, the total, and the
rounded percentage; on the empty results array the unguarded `0 / 0` makes
the percentage NaN rather than a number. -/
theorem get_score_behavior :
    getScore none = { correct := 0, total := 0, percentage := JsNum.num 0 } ∧
    (∀ rs : List GradedAnswer, rs ≠ [] →
      getScore (some rs) =
        { correct := rs.countP (fun r => r.is_correct)
          total := rs.length
          percentage := JsNum.num
            ((⌊(rs.countP (fun r => r.is_correct) : ℚ) / (rs.length : ℚ) * 100 + 1/2⌋ : ℤ) : ℚ) }) ∧
    getScore (some []) = { correct := 0, total := 0, percentage := JsNum.nan } := by
  refine ⟨rfl, ?_, rfl⟩
  intro rs hne
  have hlen : rs.length ≠ 0 := by simpa using hne
  simp [getScore, jsDivNat, jsMulConst, jsRound, hlen]

/-- Witness for C9 at a concrete single-entry results array. -/
theorem get_score_behavior_witness :
    ([({ question_index := 0, is_correct := true, feedback := ['f'] } : GradedAnswer)] ≠ []) ∧
    getScore (some [{ question_index := 0, is_correct := true, feedback := ['f'] }]) =
      { correct :=
          [({ question_index := 0, is_correct := true, feedback := ['f'] } : GradedAnswer)].countP
            (fun r => r.is_correct)
        total := [({ question_index := 0, is_correct := true, feedback := ['f'] } : GradedAnswer)].length
        percentage := JsNum.num
          ((⌊([({ question_index := 0, is_correct := true, feedback := ['f'] } : GradedAnswer)].countP
                (fun r => r.is_correct) : ℚ) /
              ([({ question_index := 0, is_correct := true, feedback := ['f'] } : GradedAnswer)].length : ℚ) *
              100 + 1/2⌋ : ℤ) : ℚ) } :=
  ⟨by simp, get_score_behavior.2.1
    [{ question_index := 0, is_correct := true, feedback := ['f'] }] (by simp)⟩

/-- A settled step preserves the navigation invariant: committed index in
bounds and no update pending. -/
theorem navSettle_inv (cards : List Flashcard) (e : NavEvent) (s : FlashcardViewState)
    (h0 : 0 ≤ s.currentIndex) (h1 : s.currentIndex < (cards.length : Int))
    (hp : s.pending = []) :
    0 ≤ (navSettle cards s e).currentIndex ∧
    (navSettle cards s e).currentIndex < (cards.length : Int) ∧
    (navSettle cards s e).pending = [] := by
  cases e with
  | next =>
    simp only [navSettle, navStep]
    unfold goToNext
    split
    case isTrue hlt =>
      simp only [hp, timerFire, List.nil_append]
      exact ⟨by omega, by omega, trivial⟩
    case isFalse =>
      simp only [timerFire, hp]
      exact ⟨h0, h1, trivial⟩
  | prev =>
    simp only [navSettle, navStep]
    unfold goToPrevious
    split
    case isTrue hlt =>
      simp only [hp, timerFire, List.nil_append]
      exact ⟨by omega, by omega, trivial⟩
    case isFalse =>
      simp only [timerFire, hp]
      exact ⟨h0, h1, trivial⟩
  | flip =>
    simp only [navSettle, navStep, flipCard, timerFire, hp]
    exact ⟨h0, h1, trivial⟩
  | tick =>
    simp only [navSettle, navStep, timerFire, hp]
    exact ⟨h0, h1, trivial⟩

/-- Folding settled events preserves the navigation invariant. -/
theorem foldNavSettle_inv (cards : List Flashcard) (events : List NavEvent) :
    ∀ s : FlashcardViewState,
      0 ≤ s.currentIndex → s.currentIndex < (cards.length : Int) → s.pending = [] →
      (0 ≤ (events.foldl (navSettle cards) s).currentIndex ∧
       (events.foldl (navSettle cards) s).currentIndex < (cards.length : Int) ∧
       (events.foldl (navSettle cards) s).pending = []) := by
  induction events with
  | nil => intro s h0 h1 hp; exact ⟨h0, h1, hp⟩
  | cons e es ih =>
    intro s h0 h1 hp
    rw [List.foldl_cons]
    obtain ⟨g0, g1, gp⟩ := navSettle_inv cards e s h0 h1 hp
    exact ih _ g0 g1 gp

/-- C10 counterexample: with the deferred index updates of the source, two
Next activations inside the 150 ms window at the second-to-last card both
pass the guard and queue `+1`; when both timers fire the committed index
reaches `cards.length`, outside `[0, cards.length - 1]`, and no card is
displayed. -/
theorem flashcard_nav_bounds_counterexample :
    0 < sampleCards.length ∧
    (runNav sampleCards
        [NavEvent.next, NavEvent.next, NavEvent.tick, NavEvent.tick]).currentIndex =
      (sampleCards.length : Int) ∧
    ¬((runNav sampleCards
        [NavEvent.next, NavEvent.next, NavEvent.tick, NavEvent.tick]).currentIndex <
      (sampleCards.length : Int)) ∧
    displayedCard sampleCards
        (runNav sampleCards [NavEvent.next, NavEvent.next, NavEvent.tick, NavEvent.tick]) =
      none := by
  decide

/-- C10 (amended): under the settled schedule — each activation's deferred
index update fires before the next activation, i.e. activations spaced
beyond the 150 ms animation delay — every event sequence on a non-empty
card list keeps `currentIndex` in `[0, cards.length - 1]` with no update
pending, the displayed card is always defined, and `goToNext` at the last
card and `goToPrevious` at the first are no-ops. -/
theorem flashcard_nav_bounds_settled (cards : List Flashcard) (h : 0 < cards.length)
    (events : List NavEvent) :
    0 ≤ (runNavSettled cards events).currentIndex ∧
    (runNavSettled cards events).currentIndex < (cards.length : Int) ∧
    (runNavSettled cards events).pending = [] ∧
    (displayedCard cards (runNavSettled cards events)).isSome = true ∧
    ((runNavSettled cards events).currentIndex = (cards.length : Int) - 1 →
      goToNext cards (runNavSettled cards events) = runNavSettled cards events) ∧
    ((runNavSettled cards events).currentIndex = 0 →
      goToPrevious (runNavSettled cards events) = runNavSettled cards events) := by
  obtain ⟨h0, h1, hp⟩ :=
    foldNavSettle_inv cards events
      { currentIndex := 0, isFlipped := false, pending := [] }
      (by simp) (by simpa using h) rfl
  replace h0 : 0 ≤ (runNavSettled cards events).currentIndex := h0
  replace h1 : (runNavSettled cards events).currentIndex < (cards.length : Int) := h1
  replace hp : (runNavSettled cards events).pending = [] := hp
  refine ⟨h0, h1, hp, ?_, ?_, ?_⟩
  · unfold displayedCard
    rw [if_pos h0]
    have hlt : (runNavSettled cards events).currentIndex.toNat < cards.length := by
      omega
    simp [List.getElem?_eq_getElem hlt]
  · intro hl
    unfold goToNext
    rw [if_neg]
    omega
  · intro hz
    unfold goToPrevious
    rw [if_neg]
    omega

/-- Witness for the amended C10 at a concrete card list and event
sequence. -/
theorem flashcard_nav_bounds_settled_witness :
    0 < sampleCards.length ∧
    (0 ≤ (runNavSettled sampleCards [NavEvent.next, NavEvent.flip]).currentIndex ∧
     (runNavSettled sampleCards [NavEvent.next, NavEvent.flip]).currentIndex <
       (sampleCards.length : Int) ∧
     (runNavSettled sampleCards [NavEvent.next, NavEvent.flip]).pending = [] ∧
     (displayedCard sampleCards
       (runNavSettled sampleCards [NavEvent.next, NavEvent.flip])).isSome = true ∧
     ((runNavSettled sampleCards [NavEvent.next, NavEvent.flip]).currentIndex =
         (sampleCards.length : Int) - 1 →
       goToNext sampleCards (runNavSettled sampleCards [NavEvent.next, NavEvent.flip]) =
         runNavSettled sampleCards [NavEvent.next, NavEvent.flip]) ∧
     ((runNavSettled sampleCards [NavEvent.next, NavEvent.flip]).currentIndex = 0 →
       goToPrevious (runNavSettled sampleCards [NavEvent.next, NavEvent.flip]) =
         runNavSettled sampleCards [NavEvent.next, NavEvent.flip])) :=
  ⟨by decide,
   flashcard_nav_bounds_settled sampleCards (by decide) [NavEvent.next, NavEvent.flip]⟩

/-- Flashcard-object validation succeeds exactly on well-shaped objects. -/
theorem flashcardOfJson_isSome (j : Json) :
    (flashcardOfJson j).isSome = isFlashcardItem j := by
  unfold flashcardOfJson isFlashcardItem
  cases hf : j.getField frontKey with
  | none => simp
  | some jf =>
    cases hb : j.getField backKey with
    | none => cases jf <;> simp
    | some jb => cases jf <;> cases jb <;> simp <;> split <;> simp_all

/-- Card-list validation succeeds exactly when every element is well-shaped. -/
theorem validateCards_isSome (l : List Json) :
    (validateCards l).isSome = l.all isFlashcardItem := by
  induction l with
  | nil => rfl
  | cons j rest ih =>
    simp only [validateCards, List.all_cons]
    rw [← flashcardOfJson_isSome, ← ih]
    cases flashcardOfJson j <;> cases validateCards rest <;> simp

/-- Flashcards-reply validation succeeds exactly on arrays of 10 well-shaped
objects. -/
theorem validateFlashcards_isSome (j : Json) :
    (validateFlashcards j).isSome = isFlashcardArray j := by
  unfold validateFlashcards isFlashcardArray
  cases j <;> simp
  case arr elems =>
    cases hlen : (elems.length == 10) with
    | false =>
      have h10 : elems.length ≠ 10 := by simpa using hlen
      simp [h10, hlen]
    | true =>
      have h10 : elems.length = 10 := by simpa using hlen
      simp [h10, hlen, validateCards_isSome]

/-- Option-list conversion succeeds exactly when every entry is a non-empty
string. -/
theorem textListOf_isSome (l : List Json) :
    (textListOf l).isSome = l.all isNonemptyStr := by
  induction l with
  | nil => rfl
  | cons j rest ih =>
    cases j <;> simp only [textListOf, isNonemptyStr, List.all_cons] <;>
      try simp
    case str s =>
      cases hs : s.isEmpty with
      | true =>
        have hnil : s = [] := by simpa using hs
        simp [hnil]
      | false =>
        have hne : s ≠ [] := by simpa using hs
        simp [hne, hs, ← ih]

/-- Option-list conversion preserves length. -/
theorem textListOf_length (l : List Json) (ts : List Text)
    (h : textListOf l = some ts) : ts.length = l.length := by
  induction l generalizing ts with
  | nil =>
    simp only [textListOf, Option.some.injEq] at h
    subst h
    rfl
  | cons j rest ih =>
    cases j <;> simp [textListOf] at h
    case str s =>
      rcases h with ⟨hs, ts0, hts0, hcons⟩
      subst hcons
      simp [ih ts0 hts0]

/-- The presence test of a conditional some. -/
theorem isSome_ite_some_none {α : Type} (c : Prop) [Decidable c] (x : α) :
    (if c then some x else none).isSome = decide c := by
  by_cases h : c <;> simp [h]

/-- Quiz-question-object validation succeeds exactly on well-shaped objects. -/
theorem quizItemOfJson_isSome (j : Json) :
    (quizItemOfJson j).isSome = isQuizItem j := by
  unfold quizItemOfJson isQuizItem
  cases hq : j.getField questionKey with
  | none => simp
  | some jq =>
    cases ho : j.getField optionsKey with
    | none => cases jq <;> simp
    | some jo =>
      cases hc : j.getField correctIndexKey with
      | none => cases jq <;> cases jo <;> simp
      | some jc =>
        cases jq <;> cases jo <;> cases jc <;> simp
        case str.arr.num q opts ci =>
          cases ht : textListOf opts with
          | none =>
            have hall : opts.all isNonemptyStr = false := by
              rw [← textListOf_isSome, ht]
              rfl
            simp [hall]
          | some ts =>
            have hall : opts.all isNonemptyStr = true := by
              rw [← textListOf_isSome, ht]
              rfl
            have hl : ts.length = opts.length := textListOf_length opts ts ht
            rw [isSome_ite_some_none, Bool.eq_iff_iff]
            simp [hall, ← hl, Bool.and_eq_true, beq_iff_eq, decide_eq_true_eq]

/-- Question-list validation succeeds exactly when every element is
well-shaped. -/
theorem validateQuestions_isSome (l : List Json) :
    (validateQuestions l).isSome = l.all isQuizItem := by
  induction l with
  | nil => rfl
  | cons j rest ih =>
    simp only [validateQuestions, List.all_cons]
    rw [← quizItemOfJson_isSome, ← ih]
    cases quizItemOfJson j <;> cases validateQuestions rest <;> simp

/-- Quiz-reply validation succeeds exactly on arrays of 10 well-shaped
objects. -/
theorem validateQuiz_isSome (j : Json) :
    (validateQuiz j).isSome = isQuizArray j := by
  unfold validateQuiz isQuizArray
  cases j <;> simp
  case arr elems =>
    cases hlen : (elems.length == 10) with
    | false =>
      have h10 : elems.length ≠ 10 := by simpa using hlen
      simp [h10, hlen]
    | true =>
      have h10 : elems.length = 10 := by simpa using hlen
      simp [h10, hlen, validateQuestions_isSome]

/-- C3: when tolerant parsing yields a JSON value that is not an array of
exactly 10 well-shaped objects, the Gateway answers `MalformedModelOutput`
and returns no data, for flashcards and quiz alike. -/
theorem malformed_output_rejection (parse : Text → Option Json) (raw : Text)
    (j : Json) (hext : tolerantExtract parse raw = some j) :
    (isFlashcardArray j = false →
      generateFlashcards parse (Except.ok raw) =
        Except.error GatewayError.MalformedModelOutput) ∧
    (isQuizArray j = false →
      generateQuiz parse (Except.ok raw) =
        Except.error GatewayError.MalformedModelOutput) := by
  constructor
  · intro hshape
    have hnone : validateFlashcards j = none := by
      cases hv : validateFlashcards j with
      | none => rfl
      | some v =>
        have := validateFlashcards_isSome j
        rw [hv, hshape] at this
        simp at this
    simp [generateFlashcards, parseModelReply, hext, hnone]
  · intro hshape
    have hnone : validateQuiz j = none := by
      cases hv : validateQuiz j with
      | none => rfl
      | some v =>
        have := validateQuiz_isSome j
        rw [hv, hshape] at this
        simp at this
    simp [generateQuiz, parseModelReply, hext, hnone]

/-- Witness for C3 at a concrete model reply parsing to an empty JSON array. -/
theorem malformed_output_rejection_witness :
    tolerantExtract parseToyEmpty ['K'] = some (Json.arr []) ∧
    isFlashcardArray (Json.arr []) = false ∧
    isQuizArray (Json.arr []) = false ∧
    generateFlashcards parseToyEmpty (Except.ok ['K']) =
      Except.error GatewayError.MalformedModelOutput ∧
    generateQuiz parseToyEmpty (Except.ok ['K']) =
      Except.error GatewayError.MalformedModelOutput :=
  ⟨rfl, rfl, rfl,
   (malformed_output_rejection parseToyEmpty ['K'] (Json.arr []) rfl).1 rfl,
   (malformed_output_rejection parseToyEmpty ['K'] (Json.arr []) rfl).2 rfl⟩

/-- The key-membership test used by `setAnswer` agrees with membership in
the key list. -/
theorem any_key_iff (m : List (Nat × Nat)) (k : Nat) :
    (m.any (fun p => p.1 == k) = true) ↔ k ∈ m.map Prod.fst := by
  simp [List.any_eq_true, List.mem_map, beq_iff_eq]

/-- Updating an existing key leaves the key list unchanged. -/
theorem setAnswer_keys_mem (m : List (Nat × Nat)) (k v : Nat)
    (h : m.any (fun p => p.1 == k) = true) :
    (setAnswer m k v).map Prod.fst = m.map Prod.fst := by
  unfold setAnswer
  rw [if_pos h, List.map_map]
  apply List.map_congr_left
  intro p _
  by_cases hpk : (p.1 == k) = true
  · simp only [Function.comp_apply, hpk, if_true]
    exact (beq_iff_eq.mp hpk).symm
  · have hne : p.1 ≠ k := by simpa using hpk
    simp [hne]

/-- Inserting a fresh key appends it to the key list. -/
theorem setAnswer_keys_new (m : List (Nat × Nat)) (k v : Nat)
    (h : m.any (fun p => p.1 == k) = false) :
    (setAnswer m k v).map Prod.fst = m.map Prod.fst ++ [k] := by
  unfold setAnswer
  rw [if_neg (by simp [h]), List.map_append]
  rfl

/-- A present key makes the object read succeed. -/
theorem getAnswer_isSome_of_mem (m : List (Nat × Nat)) (k : Nat)
    (h : k ∈ m.map Prod.fst) : (getAnswer m k).isSome = true := by
  unfold getAnswer
  rw [Option.isSome_map', List.find?_isSome]
  rcases List.mem_map.mp h with ⟨x, hx, hk⟩
  exact ⟨x, hx, by simp [hk]⟩

/-- Folding in-range answer selections preserves the component invariant:
questions and (absent) results unchanged, answer keys distinct and within
range. -/
theorem foldl_select_spec (qs : List QuizQuestion) (events : List (Nat × Nat)) :
    ∀ s : QuizState,
      (∀ e ∈ events, e.1 < qs.length) →
      s.questions = qs → s.results = none →
      (s.answers.map Prod.fst).Nodup →
      (∀ k ∈ s.answers.map Prod.fst, k < qs.length) →
      ((events.foldl (fun t e => selectAnswer t e.1 e.2) s).questions = qs ∧
       (events.foldl (fun t e => selectAnswer t e.1 e.2) s).results = none ∧
       ((events.foldl (fun t e => selectAnswer t e.1 e.2) s).answers.map Prod.fst).Nodup ∧
       (∀ k ∈ (events.foldl (fun t e => selectAnswer t e.1 e.2) s).answers.map Prod.fst,
          k < qs.length)) := by
  induction events with
  | nil =>
    intro s _ h1 h2 h3 h4
    exact ⟨h1, h2, h3, h4⟩
  | cons e es ih =>
    intro s hr h1 h2 h3 h4
    rw [List.foldl_cons]
    have hsel : selectAnswer s e.1 e.2 =
        { s with answers := setAnswer s.answers e.1 e.2 } := by
      unfold selectAnswer
      rw [h2]
      rfl
    refine ih _ (fun x hx => hr x (List.mem_cons_of_mem e hx)) ?_ ?_ ?_ ?_
    · rw [hsel]; exact h1
    · rw [hsel]; exact h2
    · rw [hsel]
      cases hany : s.answers.any (fun p => p.1 == e.1) with
      | true =>
        show ((setAnswer s.answers e.1 e.2).map Prod.fst).Nodup
        rw [setAnswer_keys_mem _ _ _ hany]
        exact h3
      | false =>
        show ((setAnswer s.answers e.1 e.2).map Prod.fst).Nodup
        rw [setAnswer_keys_new _ _ _ hany]
        have hnot : e.1 ∉ s.answers.map Prod.fst := by
          intro hmem
          rw [(any_key_iff s.answers e.1).mpr hmem] at hany
          cases hany
        simp [List.nodup_append, h3, hnot]
    · rw [hsel]
      intro k hk
      show k < qs.length
      cases hany : s.answers.any (fun p => p.1 == e.1) with
      | true =>
        rw [setAnswer_keys_mem _ _ _ hany] at hk
        exact h4 k hk
      | false =>
        rw [setAnswer_keys_new _ _ _ hany] at hk
        rcases List.mem_append.mp hk with hold | hnewk
        · exact h4 k hold
        · have : k = e.1 := by simpa using hnewk
          subst this
          exact hr e (List.mem_cons_self e es)

/-- A duplicate-free list of naturals below `n` with `n` elements contains
every natural below `n`. -/
theorem all_present (keys : List Nat) (n : Nat) (hn : keys.Nodup)
    (hb : ∀ k ∈ keys, k < n) (hl : keys.length = n) :
    ∀ i < n, i ∈ keys := by
  have hsub : keys.toFinset ⊆ Finset.range n := by
    intro x hx
    simp only [List.mem_toFinset] at hx
    simpa using hb x hx
  have hcard : keys.toFinset.card = n := by
    rw [List.toFinset_card_of_nodup hn, hl]
  have heq : keys.toFinset = Finset.range n :=
    Finset.eq_of_subset_of_card_le hsub (by simp [hcard])
  intro i hi
  have : i ∈ keys.toFinset := by
    rw [heq]
    simpa using hi
  simpa [List.mem_toFinset] using this

/-- C4: whenever the Quiz component issues a grading request after a
sequence of in-range answer selections, the payload has exactly one entry
per question; entry `i` carries `question_index = i`, the option the user
last chose for question `i` as `selected_index`, and the question fields
copied unchanged; and the request is only issued when every question has a
recorded answer. -/
theorem quiz_submission_payload (qs : List QuizQuestion)
    (events : List (Nat × Nat))
    (hrange : ∀ e ∈ events, e.1 < qs.length)
    (subs : List AnswerSubmission)
    (hsub : handleSubmit (applyEvents qs events) = some subs) :
    allAnswered (applyEvents qs events) = true ∧
    subs.length = qs.length ∧
    (∀ i, i < qs.length →
      (getAnswer (applyEvents qs events).answers i).isSome = true) ∧
    ∀ i, ∀ hi : i < qs.length,
      ∃ sub q, subs[i]? = some sub ∧ qs[i]? = some q ∧
        sub.question_index = i ∧
        getAnswer (applyEvents qs events).answers i = some sub.selected_index ∧
        sub.question = q.question ∧ sub.options = q.options ∧
        sub.correct_index = q.correct_index := by
  obtain ⟨hq, hres, hnodup, hbound⟩ :=
    foldl_select_spec qs events (initQuizState qs) hrange rfl rfl (by simp [initQuizState])
      (by simp [initQuizState])
  replace hq : (applyEvents qs events).questions = qs := hq
  replace hnodup : ((applyEvents qs events).answers.map Prod.fst).Nodup := hnodup
  replace hbound : ∀ k ∈ (applyEvents qs events).answers.map Prod.fst, k < qs.length := hbound
  have hall : allAnswered (applyEvents qs events) = true := by
    unfold handleSubmit at hsub
    cases hA : allAnswered (applyEvents qs events) with
    | true => rfl
    | false => rw [hA] at hsub; simp at hsub
  have hsubs : subs = buildSubmission (applyEvents qs events) := by
    unfold handleSubmit at hsub
    rw [hall] at hsub
    simp only [if_true] at hsub
    injection hsub with h
    exact h.symm
  have hbuild : buildSubmission (applyEvents qs events) =
      qs.enum.map (fun p =>
        { question_index := p.1
          selected_index := (getAnswer (applyEvents qs events).answers p.1).getD 0
          question := p.2.question
          options := p.2.options
          correct_index := p.2.correct_index }) := by
    unfold buildSubmission
    rw [hq]
  have hkeylen : ((applyEvents qs events).answers.map Prod.fst).length = qs.length := by
    rw [List.length_map]
    have hA := hall
    unfold allAnswered at hA
    simp only [Bool.and_eq_true, beq_iff_eq, decide_eq_true_eq] at hA
    rw [hA.2, hq]
  have hpresent : ∀ i, i < qs.length →
      (getAnswer (applyEvents qs events).answers i).isSome = true := by
    intro i hi
    apply getAnswer_isSome_of_mem
    exact all_present _ qs.length hnodup hbound hkeylen i hi
  refine ⟨hall, ?_, hpresent, ?_⟩
  · rw [hsubs, hbuild, List.length_map, List.enum_length]
  · intro i hi
    have hienum : i < qs.enum.length := by
      rw [List.enum_length]
      exact hi
    obtain ⟨v, hv⟩ := Option.isSome_iff_exists.mp (hpresent i hi)
    refine ⟨{ question_index := i
              selected_index := (getAnswer (applyEvents qs events).answers i).getD 0
              question := (qs.get ⟨i, hi⟩).question
              options := (qs.get ⟨i, hi⟩).options
              correct_index := (qs.get ⟨i, hi⟩).correct_index },
      qs.get ⟨i, hi⟩, ?_, ?_, rfl, ?_, rfl, rfl, rfl⟩
    · rw [hsubs, hbuild, List.getElem?_map,
        List.getElem?_eq_getElem hienum, List.getElem_enum]
      rfl
    · exact List.getElem?_eq_getElem hi
    · simp only [hv, Option.getD_some]

/-- Witness for C4 at a concrete two-question quiz with both questions
answered. -/
theorem quiz_submission_payload_witness :
    (∀ e ∈ ([(0, 1), (1, 0)] : List (Nat × Nat)),
      e.1 < ([sampleQ0, sampleQ1] : List QuizQuestion).length) ∧
    (allAnswered (applyEvents [sampleQ0, sampleQ1] [(0, 1), (1, 0)]) = true ∧
     (buildSubmission (applyEvents [sampleQ0, sampleQ1] [(0, 1), (1, 0)])).length =
       ([sampleQ0, sampleQ1] : List QuizQuestion).length ∧
     (∀ i, i < ([sampleQ0, sampleQ1] : List QuizQuestion).length →
       (getAnswer (applyEvents [sampleQ0, sampleQ1] [(0, 1), (1, 0)]).answers i).isSome =
         true) ∧
     ∀ i, ∀ hi : i < ([sampleQ0, sampleQ1] : List QuizQuestion).length,
       ∃ sub q,
         (buildSubmission (applyEvents [sampleQ0, sampleQ1] [(0, 1), (1, 0)]))[i]? =
           some sub ∧
         ([sampleQ0, sampleQ1] : List QuizQuestion)[i]? = some q ∧
         sub.question_index = i ∧
         getAnswer (applyEvents [sampleQ0, sampleQ1] [(0, 1), (1, 0)]).answers i =
           some sub.selected_index ∧
         sub.question = q.question ∧ sub.options = q.options ∧
         sub.correct_index = q.correct_index) :=
  ⟨by decide,
   quiz_submission_payload [sampleQ0, sampleQ1] [(0, 1), (1, 0)] (by decide) _ rfl⟩

/- ----------------------------------------------------------------
   Lemmas about the textual extraction steps, leading to the tolerant
   parse round-trip property.
   ---------------------------------------------------------------- -/

/-- Prefix test of a single-character pattern. -/
theorem isPrefixOf_single (c d : Char) (l : Text) :
    List.isPrefixOf [c] (d :: l) = (c == d) := by
  simp [List.isPrefixOf]

/-- A list is a prefix of itself followed by anything. -/
theorem isPrefixOf_self_append (pat rest : Text) :
    pat.isPrefixOf (pat ++ rest) = true := by
  induction pat with
  | nil => simp [List.isPrefixOf]
  | cons c p ih => simp [List.isPrefixOf, ih]

/-- Splitting hits immediately when the pattern is a prefix. -/
theorem splitOnFirst_pos (pat : Text) (c : Char) (l : Text)
    (h : pat.isPrefixOf (c :: l) = true) :
    splitOnFirst pat (c :: l) = some ([], (c :: l).drop pat.length) := by
  unfold splitOnFirst
  rw [if_pos h]

/-- Splitting walks over a head that the pattern does not match. -/
theorem splitOnFirst_neg (pat : Text) (c : Char) (l : Text)
    (h : pat.isPrefixOf (c :: l) = false) :
    splitOnFirst pat (c :: l) =
      (splitOnFirst pat l).map (fun p => (c :: p.1, p.2)) := by
  show (if pat.isPrefixOf (c :: l) = true
        then some ([], (c :: l).drop pat.length)
        else match splitOnFirst pat l with
             | some (b, a) => some (c :: b, a)
             | none => none) =
      (splitOnFirst pat l).map (fun p => (c :: p.1, p.2))
  rw [if_neg (by simp [h])]
  cases splitOnFirst pat l with
  | none => rfl
  | some p => rfl

/-- Splitting on a leading copy of the pattern returns the remainder. -/
theorem splitOnFirst_self_append (pat : Text) (hne : pat ≠ []) (rest : Text) :
    splitOnFirst pat (pat ++ rest) = some ([], rest) := by
  cases pat with
  | nil => cases hne rfl
  | cons c p =>
    rw [List.cons_append,
      splitOnFirst_pos _ _ _ (by rw [← List.cons_append]; exact isPrefixOf_self_append _ _)]
    simp

/-- Dropping the language-tag line of a fenced `json` block. -/
theorem dropFirstLine_json (s : Text) :
    dropFirstLine ("json\n".toList ++ (s ++ ['\n'])) = s ++ ['\n'] := by
  have h1 : "json\n".toList ++ (s ++ ['\n']) =
      'j' :: ('s' :: ('o' :: ('n' :: ('\n' :: (s ++ ['\n']))))) := rfl
  unfold dropFirstLine
  rw [h1,
    splitOnFirst_neg _ _ _ (by rw [isPrefixOf_single]; decide),
    splitOnFirst_neg _ _ _ (by rw [isPrefixOf_single]; decide),
    splitOnFirst_neg _ _ _ (by rw [isPrefixOf_single]; decide),
    splitOnFirst_neg _ _ _ (by rw [isPrefixOf_single]; decide),
    splitOnFirst_pos _ _ _ (by rw [isPrefixOf_single]; decide)]
  rfl

/-- Trimming a payload with no surrounding whitespace removes exactly the
trailing newline that the fence wrapper added. -/
theorem trimText_append_newline (s : Text)
    (h1 : s.dropWhile isWs = s) (h2 : s.reverse.dropWhile isWs = s.reverse) :
    trimText (s ++ ['\n']) = s := by
  cases s with
  | nil => rfl
  | cons c t =>
    have hc : isWs c = false := by
      cases hch : isWs c with
      | false => rfl
      | true =>
        exfalso
        rw [List.dropWhile_cons, hch] at h1
        simp only [if_true] at h1
        have hlen := (List.dropWhile_sublist (l := t) isWs).length_le
        rw [h1] at hlen
        simp at hlen
    unfold trimText
    rw [List.cons_append, List.dropWhile_cons, hc]
    simp only [Bool.false_eq_true, if_false]
    rw [show ((c :: (t ++ ['\n'])).reverse) = '\n' :: (c :: t).reverse by simp,
      List.dropWhile_cons]
    simp only [show isWs '\n' = true from rfl, if_true]
    rw [h2, List.reverse_reverse]

/-- The closing fence of a wrapped payload is found as the last fence. -/
theorem splitOnLast_tail (s : Text) :
    splitOnLast fenceMark ("json\n".toList ++ (s ++ "\n```".toList)) =
      some ("json\n".toList ++ (s ++ ['\n']), []) := by
  unfold splitOnLast
  have hrev : ("json\n".toList ++ (s ++ "\n```".toList)).reverse =
      fenceMark ++ ('\n' :: (s.reverse ++ "json\n".toList.reverse)) := by
    simp [List.reverse_append, fenceMark]
  rw [show fenceMark.reverse = fenceMark from rfl, hrev,
    splitOnFirst_self_append fenceMark (by decide)]
  simp [List.reverse_append, List.append_assoc]

/-- Fenced extraction recovers a whitespace-clean payload from its fenced
wrapper exactly. -/
theorem extractFenced_wrapFence (s : Text)
    (h1 : s.dropWhile isWs = s) (h2 : s.reverse.dropWhile isWs = s.reverse) :
    extractFenced (wrapFence s) = some s := by
  have hw : wrapFence s =
      fenceMark ++ ("json\n".toList ++ (s ++ "\n```".toList)) := rfl
  unfold extractFenced
  rw [hw, splitOnFirst_self_append fenceMark (by decide)]
  show (match splitOnLast fenceMark ("json\n".toList ++ (s ++ "\n```".toList)) with
        | none => none
        | some (mid, _) => some (trimText (dropFirstLine mid))) = some s
  rw [splitOnLast_tail]
  show some (trimText (dropFirstLine ("json\n".toList ++ (s ++ ['\n'])))) = some s
  rw [dropFirstLine_json, trimText_append_newline s h1 h2]

/-- C5: a whitespace-clean payload that parses directly (while its fenced
wrapper does not parse as raw text) is parsed and validated identically
whether or not it is wrapped in a fenced markdown code block, and both
ways produce the validated value. -/
theorem tolerant_parse_round_trip {α : Type} (parse : Text → Option Json)
    (validate : Json → Option α) (s : Text) (j : Json) (v : α)
    (hparse : parse s = some j)
    (hwrap : parse (wrapFence s) = none)
    (h1 : s.dropWhile isWs = s) (h2 : s.reverse.dropWhile isWs = s.reverse)
    (hvalid : validate j = some v) :
    parseModelReply parse validate (wrapFence s) =
      parseModelReply parse validate s ∧
    parseModelReply parse validate (wrapFence s) = Except.ok v := by
  have hext : extractFenced (wrapFence s) = some s := extractFenced_wrapFence s h1 h2
  have ht : tolerantExtract parse (wrapFence s) = some j := by
    unfold tolerantExtract
    rw [hwrap, hext]
    simp [hparse]
  have ht2 : tolerantExtract parse s = some j := by
    unfold tolerantExtract
    rw [hparse]
  unfold parseModelReply
  rw [ht, ht2]
  simp [hvalid]

/-- Witness for C5 at a concrete payload, wrapped and unwrapped. -/
theorem tolerant_parse_round_trip_witness :
    parseToy ['J'] = some tenCardsJson ∧
    parseToy (wrapFence ['J']) = none ∧
    (['J'] : Text).dropWhile isWs = ['J'] ∧
    (['J'] : Text).reverse.dropWhile isWs = (['J'] : Text).reverse ∧
    validateFlashcards tenCardsJson = some tenCards ∧
    (parseModelReply parseToy validateFlashcards (wrapFence ['J']) =
      parseModelReply parseToy validateFlashcards ['J'] ∧
     parseModelReply parseToy validateFlashcards (wrapFence ['J']) =
       Except.ok tenCards) :=
  ⟨rfl, rfl, rfl, rfl, rfl,
   tolerant_parse_round_trip parseToy validateFlashcards ['J'] tenCardsJson tenCards
     rfl rfl rfl rfl rfl⟩
